import Mathlib

/-!
Shallow embedding of src/index.js of the fetch-promises repository.

The script sets a base URL, then runs three independent fetch/promise
chains against the CatFacts API: getRandomFact (GET /fact), getMultipleFacts
(GET /facts?limit=3) and getCatBreeds (GET /breeds). Each chain is
fetch(url).then(response => response.json()).then(data => ...).catch(log).

The embedding models:
  * JSON values (Json) and JavaScript values (JsVal: a Json or undefined);
  * the transport outcome of one fetch (FetchResult): either a network
    failure (a rejected fetch promise) or an HttpResponse carrying a status
    code and a body, where the body is either well-formed JSON or malformed
    text (on which response.json() rejects with a SyntaxError);
  * console output as a list of ConsoleEvent: console.log lines and
    console.error entries; the source calls console.error(label, error)
    with two arguments, so the error event carries the label string and
    the JavaScript error separately;
  * each promise chain as a pure function from its FetchResult to the list
    of console events it produces (runChain), with the success callback a
    function returning the events it logs plus an optional thrown error
    (property access on undefined or null throws a TypeError, which the
    trailing .catch converts into a console.error entry);
  * the whole script (runMain) as: the startup log, the three requests
    fired in source order, and the three completions delivered in an
    arbitrary arrival order, each completion running its chain to the end.
-/

namespace FetchPromises

/-- JSON values, as produced by response.json(). Numbers are modelled as
integers: every numeric field in the API shapes used by this script
(length, limit) is an integer. -/
inductive Json where
  | null
  | bool (b : Bool)
  | num (n : Int)
  | str (s : String)
  | arr (elems : List Json)
  | obj (fields : List (String × Json))

/-- A JavaScript value as seen by the script: a JSON value or undefined
(the result of reading an absent property). -/
inductive JsVal where
  | undef
  | val (j : Json)

/-- The JavaScript errors this script can see: a rejected fetch (network
failure), a SyntaxError from JSON parsing in response.json(), and a
TypeError from a property access on undefined/null or from calling a
non-function. -/
inductive JsError where
  | networkError (msg : String)
  | syntaxError (snippet : String)
  | typeError (msg : String)

/-- One console event: a console.log line, or a console.error entry.
The source always calls console.error(label, error) with two arguments,
so the event keeps the report label and the error separate. -/
inductive ConsoleEvent where
  | log (line : String)
  | error (label : String) (err : JsError)

/-- A response body: well-formed JSON, or malformed text on which
response.json() rejects (the snippet stands for the offending text). -/
inductive Body where
  | malformed (snippet : String)
  | wellFormed (j : Json)

/-- An HTTP response: status code and body. -/
structure HttpResponse where
  status : Nat
  body : Body

/-- The outcome of one fetch(url) call: the promise rejects (network
failure) or resolves with a response. -/
inductive FetchResult where
  | networkFailure (msg : String)
  | response (r : HttpResponse)

/-- Property lookup in a JSON object. JSON.parse keeps the last of
duplicate keys, so the lookup prefers later fields; an absent key reads
as undefined. -/
def lookupField : List (String × Json) → String → JsVal
  | [], _ => .undef
  | (k, v) :: rest, key =>
    match lookupField rest key with
    | .undef => if k = key then .val v else .undef
    | .val j => .val j

/-- Property access j.key on a parsed JSON value, as JavaScript evaluates
it: objects give the field or undefined, null throws a TypeError, and
every other primitive or array gives undefined for the property names
this script reads (fact, data, breed). -/
def getProp : Json → String → Except JsError JsVal
  | .obj fields, key => .ok (lookupField fields key)
  | .null, key =>
      .error (.typeError ("Cannot read properties of null (reading " ++ key ++ ")"))
  | _, _ => .ok .undef

mutual

/-- String conversion of a JSON value, as a JavaScript template literal or
console.log of the values this script prints performs it. The script only
ever prints strings, numbers and undefined (the fact/breed fields); for
completeness arrays render as their comma-joined elements and objects as
the object tag, the standard String() conversion. -/
def displayJson : Json → String
  | .null => "null"
  | .bool bv => if bv then "true" else "false"
  | .num n => toString n
  | .str s => s
  | .arr elems => displayElems elems
  | .obj _ => "[object Object]"

/-- Comma-joined rendering of array elements under String() conversion
(null elements render empty, as Array.prototype.join does). -/
def displayElems : List Json → String
  | [] => ""
  | [.null] => ""
  | [x] => displayJson x
  | .null :: y :: rest => "," ++ displayElems (y :: rest)
  | x :: y :: rest => displayJson x ++ ("," ++ displayElems (y :: rest))

end

/-- String conversion of a JavaScript value for printing; undefined prints
as the word undefined. -/
def display : JsVal → String
  | .undef => "undefined"
  | .val j => displayJson j

/-- The rendering of a JavaScript error as console.error prints it. -/
def errString : JsError → String
  | .networkError m => "TypeError: fetch failed (" ++ m ++ ")"
  | .syntaxError snippet => "SyntaxError: Unexpected token, body: " ++ snippet
  | .typeError m => "TypeError: " ++ m

/-- response.json(): reads the body and parses it as JSON; a malformed
body rejects with a SyntaxError. The status code is not consulted (fetch
resolves normally on 4xx/5xx responses and the source never reads
response.status or response.ok). -/
def responseJson (r : HttpResponse) : Except JsError Json :=
  match r.body with
  | .wellFormed j => .ok j
  | .malformed snippet => .error (.syntaxError snippet)

/-- One promise chain
fetch(...).then(response => response.json()).then(onData).catch(err => console.error(label, err)):
a rejected fetch or a JSON parse failure skips onData and reaches the
catch; otherwise onData runs, and an error it throws (after the events it
already logged) also reaches the catch. -/
def runChain (tr : FetchResult) (label : String)
    (onData : Json → List ConsoleEvent × Option JsError) : List ConsoleEvent :=
  match tr with
  | .networkFailure m => [.error label (.networkError m)]
  | .response r =>
    match responseJson r with
    | .error e => [.error label e]
    | .ok data =>
      match (onData data).2 with
      | none => (onData data).1
      | some e => (onData data).1 ++ [.error label e]

-- Base URL for CatFacts API
def baseUrl : String := "https://catfact.ninja"

-- Specify the number of facts to fetch (e.g., 3)
def numberOfFacts : Nat := 3

/-- The URL of the single-fact request, the template literal of the source
interpolating baseUrl before /fact. -/
def randomFactUrl : String := baseUrl ++ "/fact"

/-- The URL of the multi-fact request, interpolating baseUrl and
numberOfFacts. -/
def multipleFactsUrl : String := baseUrl ++ "/facts?limit=" ++ toString numberOfFacts

/-- The URL of the breeds request. -/
def breedsUrl : String := baseUrl ++ "/breeds"

/-- The label passed to console.error by getRandomFact. -/
def randomFactLabel : String := "Error fetching random cat fact:"

/-- The label passed to console.error by getMultipleFacts. -/
def multipleFactsLabel : String := "Error fetching multiple cat facts:"

/-- The label passed to console.error by getCatBreeds. -/
def catBreedsLabel : String := "Error fetching cat breeds:"

/-- The success callback of getRandomFact: logs the header, then logs
data.fact. If the access data.fact throws (data is null), the header was
already printed when the error propagates. -/
def randomFactOnData (data : Json) : List ConsoleEvent × Option JsError :=
  match getProp data "fact" with
  | .error e => ([.log "Random Cat Fact:"], some e)
  | .ok v => ([.log "Random Cat Fact:", .log (display v)], none)

/-- The numbered forEach body shared in shape by the two list reports:
for each element x of the array, logs (index+1). x.field; an element
access that throws stops the iteration and propagates the error. -/
def numberItems (field : String) : List Json → Nat → List ConsoleEvent × Option JsError
  | [], _ => ([], none)
  | x :: xs, i =>
    match getProp x field with
    | .error e => ([], some e)
    | .ok v =>
      match numberItems field xs (i + 1) with
      | (evs, err) => (.log (toString (i + 1) ++ ". " ++ display v) :: evs, err)

/-- Calling .forEach on the value of data.data: undefined or null throws
the property-read TypeError, a non-array value throws a call TypeError,
and an array iterates the numbered callback. -/
def forEachNumbered (field : String) (v : JsVal) : List ConsoleEvent × Option JsError :=
  match v with
  | .undef => ([], some (.typeError "Cannot read properties of undefined (reading forEach)"))
  | .val (.arr elems) => numberItems field elems 0
  | .val .null => ([], some (.typeError "Cannot read properties of null (reading forEach)"))
  | .val _ => ([], some (.typeError "data.data.forEach is not a function"))

/-- The success callback of getMultipleFacts: logs the header line (a
leading newline, the fact count and the title), then iterates
data.data.forEach printing each numbered fact. The header is printed
before data.data is read, so a failing access still leaves the header
printed. -/
def multipleFactsOnData (data : Json) : List ConsoleEvent × Option JsError :=
  match getProp data "data" with
  | .error e => ([.log ("\n" ++ toString numberOfFacts ++ " Random Cat Facts:")], some e)
  | .ok v =>
    (.log ("\n" ++ toString numberOfFacts ++ " Random Cat Facts:")
        :: (forEachNumbered "fact" v).1,
      (forEachNumbered "fact" v).2)

/-- The success callback of getCatBreeds: logs the header, then iterates
data.data.forEach printing each numbered breed. -/
def catBreedsOnData (data : Json) : List ConsoleEvent × Option JsError :=
  match getProp data "data" with
  | .error e => ([.log "\nList of Cat Breeds:"], some e)
  | .ok v =>
    (.log "\nList of Cat Breeds:" :: (forEachNumbered "breed" v).1,
      (forEachNumbered "breed" v).2)

/-- Fetch a single random cat fact: the whole chain of getRandomFact as a
function of its transport outcome. -/
def getRandomFact (tr : FetchResult) : List ConsoleEvent :=
  runChain tr randomFactLabel randomFactOnData

/-- Fetch multiple random cat facts: the whole chain of getMultipleFacts. -/
def getMultipleFacts (tr : FetchResult) : List ConsoleEvent :=
  runChain tr multipleFactsLabel multipleFactsOnData

/-- Fetch cat breeds: the whole chain of getCatBreeds. -/
def getCatBreeds (tr : FetchResult) : List ConsoleEvent :=
  runChain tr catBreedsLabel catBreedsOnData

/-- The startup log printed synchronously before any fetch. -/
def startupEvent : ConsoleEvent :=
  .log ("Base URL set up for CatFacts API: " ++ baseUrl)

/-- The chain run for each of the three reports, indexed in source order:
0 = getRandomFact, 1 = getMultipleFacts, 2 = getCatBreeds. -/
def reportHandler : Fin 3 → FetchResult → List ConsoleEvent
  | ⟨0, _⟩ => getRandomFact
  | ⟨1, _⟩ => getMultipleFacts
  | ⟨2, _⟩ => getCatBreeds

/-- The URL each report requests, indexed in source order. -/
def reportUrl : Fin 3 → String
  | ⟨0, _⟩ => randomFactUrl
  | ⟨1, _⟩ => multipleFactsUrl
  | ⟨2, _⟩ => breedsUrl

/-- The requests the script fires, in the order the three calls appear in
the source: getRandomFact(), getMultipleFacts(), getCatBreeds(). -/
def firedRequests : List String := [reportUrl 0, reportUrl 1, reportUrl 2]

/-- The whole script under the single-threaded event-loop model: the
startup line prints first; the three fetches are fired without blocking;
then the responses are delivered in an arbitrary arrival order, and each
delivery runs that report's whole chain. tr gives each report its own
transport outcome (the reports share no state). -/
def runMain (arrival : List (Fin 3)) (tr : Fin 3 → FetchResult) : List ConsoleEvent :=
  startupEvent :: arrival.flatMap fun i => reportHandler i (tr i)

/-- The transport assignment giving report 0 outcome f0, report 1 outcome
f1 and report 2 outcome f2. -/
def trOf (f0 f1 f2 : FetchResult) : Fin 3 → FetchResult
  | ⟨0, _⟩ => f0
  | ⟨1, _⟩ => f1
  | ⟨2, _⟩ => f2

/-- The standard-output text of a list of console events: each
console.log line followed by a newline; console.error goes to the error
channel, not here. -/
def stdoutOf : List ConsoleEvent → String
  | [] => ""
  | .log s :: rest => s ++ "\n" ++ stdoutOf rest
  | .error _ _ :: rest => stdoutOf rest

/-- The standard-error text of a list of console events: each
console.error entry as one line, label and rendered error joined by a
space as console.error joins its arguments. -/
def stderrOf : List ConsoleEvent → String
  | [] => ""
  | .log _ :: rest => stderrOf rest
  | .error l e :: rest => l ++ " " ++ errString e ++ "\n" ++ stderrOf rest

/-- The labels of the error-channel entries of an event list, in order. -/
def errorLabels (evs : List ConsoleEvent) : List String :=
  evs.filterMap fun ev =>
    match ev with
    | .error l _ => some l
    | .log _ => none

/-- A transport stub: status 500 with a well-formed single-fact JSON body. -/
def status500FactResponse : FetchResult :=
  .response ⟨500, .wellFormed (.obj [("fact", .str "X"), ("length", .num 1)])⟩

/-- A transport stub: status 200 with the well-formed body of an empty
JSON object (no data field). -/
def emptyObjectResponse : FetchResult :=
  .response ⟨200, .wellFormed (.obj [])⟩

/-- A transport stub: status 200 with a well-formed body that has a length
field but no fact field. -/
def missingFactResponse : FetchResult :=
  .response ⟨200, .wellFormed (.obj [("length", .num 5)])⟩

theorem string_append_empty (s : String) : s ++ "" = s := by
  apply String.ext
  simp [String.data_append]

theorem string_append_assoc (a b c : String) : a ++ b ++ c = a ++ (b ++ c) := by
  apply String.ext
  simp [String.data_append]

/-- Claim C4: the request URLs are the base URL and the path joined by
exactly one separating slash, with the limit query parameter appended
after a question mark: /facts?limit=3, /fact, /breeds under
https://catfact.ninja. -/
theorem c4_request_urls :
    multipleFactsUrl = "https://catfact.ninja/facts?limit=3"
    ∧ randomFactUrl = "https://catfact.ninja/fact"
    ∧ breedsUrl = "https://catfact.ninja/breeds" :=
  ⟨rfl, rfl, rfl⟩

/-- Claim C2: for any well-formed JSON body with a string fact field and
an integer length field returned with status 200, the single-fact report
writes exactly the two lines Random Cat Fact: and the fact to standard
output, and nothing to the error channel. -/
theorem c2_single_fact_output (s : String) (n : Int) :
    stdoutOf (getRandomFact
        (.response ⟨200, .wellFormed (.obj [("fact", .str s), ("length", .num n)])⟩))
      = "Random Cat Fact:\n" ++ s ++ "\n"
    ∧ stderrOf (getRandomFact
        (.response ⟨200, .wellFormed (.obj [("fact", .str s), ("length", .num n)])⟩))
      = "" := by
  constructor
  · show "Random Cat Fact:" ++ "\n" ++ (s ++ "\n" ++ "") = "Random Cat Fact:\n" ++ s ++ "\n"
    rw [string_append_empty, ← string_append_assoc]
    rfl
  · rfl

/-- Claim C3: for a multi-fact response with exactly three fact records,
the multiple-facts report prints its header line followed by exactly the
three lines numbered 1., 2., 3., one per record, in the order of the
records in the response; likewise the breeds report for three breed
records. -/
theorem c3_numbered_list_order (a b c : String) :
    getMultipleFacts (.response ⟨200, .wellFormed (.obj [("data", .arr
        [.obj [("fact", .str a)], .obj [("fact", .str b)], .obj [("fact", .str c)]])])⟩)
      = [.log "\n3 Random Cat Facts:",
         .log ("1. " ++ a), .log ("2. " ++ b), .log ("3. " ++ c)]
    ∧ getCatBreeds (.response ⟨200, .wellFormed (.obj [("data", .arr
        [.obj [("breed", .str a)], .obj [("breed", .str b)], .obj [("breed", .str c)]])])⟩)
      = [.log "\nList of Cat Breeds:",
         .log ("1. " ++ a), .log ("2. " ++ b), .log ("3. " ++ c)] :=
  ⟨rfl, rfl⟩

/-- Claim C10: for a collection response whose data field is the empty
array, the multiple-facts and breeds reports print only their header line,
no numbered lines and no error, whatever the status code. -/
theorem c10_empty_collection (st : Nat) :
    getMultipleFacts (.response ⟨st, .wellFormed (.obj [("data", .arr [])])⟩)
      = [.log "\n3 Random Cat Facts:"]
    ∧ getCatBreeds (.response ⟨st, .wellFormed (.obj [("data", .arr [])])⟩)
      = [.log "\nList of Cat Breeds:"] :=
  ⟨rfl, rfl⟩

/-- Claim C1 (counterexample): for the stubbed response with status 500
and a well-formed fact body, the pipeline does not fail: it parses the
body, runs the projection and prints the fact from the body as a success,
and no error entry is produced — refuting that a status of 400 or more
fails with HttpStatusError with the body never parsed. -/
theorem c1_counterexample_status500_parsed :
    getRandomFact status500FactResponse = [.log "Random Cat Fact:", .log "X"]
    ∧ errorLabels (getRandomFact status500FactResponse) = [] :=
  ⟨rfl, rfl⟩

/-- Claim C1 (amended): the code never inspects the response status code:
for every body, each report behaves identically under any two status
codes, so a response with status 400 or more is processed exactly like a
200 — its body is read and parsed as JSON and, when it parses, the
projection runs; no HttpStatusError exists. In particular the status-500
fact response prints the fact as a success. -/
theorem c1_amended_status_ignored (st st2 : Nat) (b : Body) :
    (getRandomFact (.response ⟨st, b⟩) = getRandomFact (.response ⟨st2, b⟩)
     ∧ getMultipleFacts (.response ⟨st, b⟩) = getMultipleFacts (.response ⟨st2, b⟩)
     ∧ getCatBreeds (.response ⟨st, b⟩) = getCatBreeds (.response ⟨st2, b⟩))
    ∧ getRandomFact status500FactResponse = [.log "Random Cat Fact:", .log "X"] :=
  ⟨⟨rfl, rfl, rfl⟩, rfl⟩

/-- Claim C5: for every response whose body is not valid JSON, each report
fails with the JSON decode error (the SyntaxError with which
response.json() rejects, the decode-failure kind) and the projection is
never invoked: the output is exactly the one error entry, with no log
line, whatever the status code. -/
theorem c5_malformed_body_decode_error (st : Nat) (snippet : String) :
    getRandomFact (.response ⟨st, .malformed snippet⟩)
      = [.error randomFactLabel (.syntaxError snippet)]
    ∧ getMultipleFacts (.response ⟨st, .malformed snippet⟩)
      = [.error multipleFactsLabel (.syntaxError snippet)]
    ∧ getCatBreeds (.response ⟨st, .malformed snippet⟩)
      = [.error catBreedsLabel (.syntaxError snippet)] :=
  ⟨rfl, rfl, rfl⟩

/-- Claim C8 (counterexample): for the stubbed status-200 response whose
body lacks the fact field, the single-fact report does not fail at all —
it prints the word undefined as a success line and produces no error
entry, refuting that a missing expected field is reported as DecodeError. -/
theorem c8_counterexample_missing_fact_silent :
    getRandomFact missingFactResponse = [.log "Random Cat Fact:", .log "undefined"]
    ∧ errorLabels (getRandomFact missingFactResponse) = [] :=
  ⟨rfl, rfl⟩

/-- Claim C8 (amended): a successfully parsed body that lacks an expected
field is not reported as a decode error: a missing fact field is silently
printed as the word undefined with no error, and a missing data field
makes the collection reports throw a TypeError from reading forEach on
undefined — an unrelated fault caught by the generic handler — after
their header line has already been printed. -/
theorem c8_amended_missing_field (st : Nat) (fields : List (String × Json)) :
    (lookupField fields "fact" = .undef →
      getRandomFact (.response ⟨st, .wellFormed (.obj fields)⟩)
        = [.log "Random Cat Fact:", .log "undefined"])
    ∧ (lookupField fields "data" = .undef →
      getMultipleFacts (.response ⟨st, .wellFormed (.obj fields)⟩)
        = [.log "\n3 Random Cat Facts:",
           .error multipleFactsLabel
             (.typeError "Cannot read properties of undefined (reading forEach)")]
      ∧ getCatBreeds (.response ⟨st, .wellFormed (.obj fields)⟩)
        = [.log "\nList of Cat Breeds:",
           .error catBreedsLabel
             (.typeError "Cannot read properties of undefined (reading forEach)")]) := by
  refine ⟨fun h => ?_, fun h => ⟨?_, ?_⟩⟩ <;>
    (simp [getRandomFact, getMultipleFacts, getCatBreeds, runChain, responseJson,
      randomFactOnData, multipleFactsOnData, catBreedsOnData, getProp, h,
      forEachNumbered, display]
     try rfl)

/-- Witness for C8 (amended): concrete bodies lacking the fact and data
fields, with the hypotheses discharged by evaluation. -/
theorem c8_amended_missing_field_witness :
    getRandomFact (.response ⟨200, .wellFormed (.obj [("length", .num 5)])⟩)
      = [.log "Random Cat Fact:", .log "undefined"]
    ∧ getMultipleFacts (.response ⟨200, .wellFormed (.obj [])⟩)
      = [.log "\n3 Random Cat Facts:",
         .error multipleFactsLabel
           (.typeError "Cannot read properties of undefined (reading forEach)")] :=
  ⟨(c8_amended_missing_field 200 [("length", .num 5)]).1 rfl,
   ((c8_amended_missing_field 200 []).2 rfl).1⟩

theorem errorLabels_append (a b : List ConsoleEvent) :
    errorLabels (a ++ b) = errorLabels a ++ errorLabels b := by
  simp [errorLabels]

theorem numberItems_no_error_events (field : String) (xs : List Json) :
    ∀ i, errorLabels (numberItems field xs i).1 = [] := by
  induction xs with
  | nil => exact fun _ => rfl
  | cons x xs ih =>
    intro i
    unfold numberItems
    cases hg : getProp x field with
    | error e => rfl
    | ok v =>
      cases hn : numberItems field xs (i + 1) with
      | mk evs err =>
        have h2 := ih (i + 1)
        rw [hn] at h2
        simpa [errorLabels] using h2

theorem forEachNumbered_no_error_events (field : String) (v : JsVal) :
    errorLabels (forEachNumbered field v).1 = [] := by
  unfold forEachNumbered
  split
  · rfl
  · exact numberItems_no_error_events field _ 0
  · rfl
  · rfl

theorem randomFactOnData_no_error_events (j : Json) :
    errorLabels (randomFactOnData j).1 = [] := by
  unfold randomFactOnData
  split <;> rfl

theorem multipleFactsOnData_no_error_events (j : Json) :
    errorLabels (multipleFactsOnData j).1 = [] := by
  unfold multipleFactsOnData
  split
  · rfl
  · next v heq =>
    simpa [errorLabels] using forEachNumbered_no_error_events "fact" v

theorem catBreedsOnData_no_error_events (j : Json) :
    errorLabels (catBreedsOnData j).1 = [] := by
  unfold catBreedsOnData
  split
  · rfl
  · next v heq =>
    simpa [errorLabels] using forEachNumbered_no_error_events "breed" v

theorem runChain_error_labels (tr : FetchResult) (label : String)
    (onData : Json → List ConsoleEvent × Option JsError)
    (h : ∀ j, errorLabels (onData j).1 = []) :
    errorLabels (runChain tr label onData) = []
    ∨ errorLabels (runChain tr label onData) = [label] := by
  unfold runChain
  split
  · right; rfl
  · split
    · right; rfl
    · next data heq =>
      split
      · left
        exact h data
      · right
        rw [errorLabels_append, h data]
        rfl

theorem runChain_ne_nil (tr : FetchResult) (label : String)
    (onData : Json → List ConsoleEvent × Option JsError)
    (h : ∀ j, (onData j).1 ≠ []) :
    runChain tr label onData ≠ [] := by
  unfold runChain
  split
  · simp
  · split
    · simp
    · next data heq =>
      split
      · exact h data
      · simp

theorem randomFactOnData_ne_nil (j : Json) : (randomFactOnData j).1 ≠ [] := by
  unfold randomFactOnData
  split <;> simp

theorem multipleFactsOnData_ne_nil (j : Json) : (multipleFactsOnData j).1 ≠ [] := by
  unfold multipleFactsOnData
  split <;> simp

theorem catBreedsOnData_ne_nil (j : Json) : (catBreedsOnData j).1 ≠ [] := by
  unfold catBreedsOnData
  split <;> simp

/-- Claim C6: a failure in any one report is caught at that report's
boundary: the whole run is the startup line followed by the three
reports' event blocks, each block a function of that report's own
transport outcome only — so a failure in one report cannot prevent or
alter the output of the other two — and every report always produces its
block (nonempty output, never an uncaught fault terminating the run). -/
theorem c6_report_isolation (f0 f1 f2 : FetchResult) :
    runMain [0, 1, 2] (trOf f0 f1 f2)
      = startupEvent :: (getRandomFact f0 ++ (getMultipleFacts f1 ++ getCatBreeds f2))
    ∧ getRandomFact f0 ≠ [] ∧ getMultipleFacts f1 ≠ [] ∧ getCatBreeds f2 ≠ [] := by
  refine ⟨?_, ?_, ?_, ?_⟩
  · show startupEvent ::
        (getRandomFact f0 ++ (getMultipleFacts f1 ++ (getCatBreeds f2 ++ []))) = _
    rw [List.append_nil]
  · exact runChain_ne_nil f0 randomFactLabel randomFactOnData randomFactOnData_ne_nil
  · exact runChain_ne_nil f1 multipleFactsLabel multipleFactsOnData multipleFactsOnData_ne_nil
  · exact runChain_ne_nil f2 catBreedsLabel catBreedsOnData catBreedsOnData_ne_nil

/-- Claim C7 (counterexample): for the stubbed status-200 response whose
well-formed body is an empty object, the multiple-facts report fails but
prints its header line to standard output before the one error entry — so
a failing report does not print nothing else. -/
theorem c7_counterexample_partial_header :
    getMultipleFacts emptyObjectResponse
      = [.log "\n3 Random Cat Facts:",
         .error multipleFactsLabel
           (.typeError "Cannot read properties of undefined (reading forEach)")]
    ∧ stdoutOf (getMultipleFacts emptyObjectResponse) = "\n3 Random Cat Facts:\n" :=
  ⟨rfl, rfl⟩

/-- Claim C7 (amended): every report logs at most one error entry on the
error channel, always carrying that report's own label together with the
error, and a report failing before its success callback runs (network
failure or malformed JSON body) prints exactly that one error entry and
nothing else; but a failure inside the success callback (a missing data
field) occurs after the header line has been printed, so that header also
appears for the failing report. -/
theorem c7_amended_single_labeled_error :
    (∀ f : FetchResult,
      (errorLabels (getRandomFact f) = []
        ∨ errorLabels (getRandomFact f) = [randomFactLabel])
      ∧ (errorLabels (getMultipleFacts f) = []
        ∨ errorLabels (getMultipleFacts f) = [multipleFactsLabel])
      ∧ (errorLabels (getCatBreeds f) = []
        ∨ errorLabels (getCatBreeds f) = [catBreedsLabel]))
    ∧ (∀ m : String,
      getRandomFact (.networkFailure m) = [.error randomFactLabel (.networkError m)]
      ∧ getMultipleFacts (.networkFailure m) = [.error multipleFactsLabel (.networkError m)]
      ∧ getCatBreeds (.networkFailure m) = [.error catBreedsLabel (.networkError m)])
    ∧ (∀ (st : Nat) (snippet : String),
      getRandomFact (.response ⟨st, .malformed snippet⟩)
        = [.error randomFactLabel (.syntaxError snippet)]
      ∧ getMultipleFacts (.response ⟨st, .malformed snippet⟩)
        = [.error multipleFactsLabel (.syntaxError snippet)]
      ∧ getCatBreeds (.response ⟨st, .malformed snippet⟩)
        = [.error catBreedsLabel (.syntaxError snippet)]) := by
  refine ⟨fun f => ⟨?_, ?_, ?_⟩,
    fun m => ⟨rfl, rfl, rfl⟩, fun st snippet => ⟨rfl, rfl, rfl⟩⟩
  · exact runChain_error_labels f randomFactLabel randomFactOnData
      randomFactOnData_no_error_events
  · exact runChain_error_labels f multipleFactsLabel multipleFactsOnData
      multipleFactsOnData_no_error_events
  · exact runChain_error_labels f catBreedsLabel catBreedsOnData
      catBreedsOnData_no_error_events

/-- Claim C9: the script fires the three requests in source order (single
fact, multiple facts, breeds), without blocking on any completion; the
completions are delivered in an arbitrary arrival order, and the run
prints the reports' blocks in exactly that arrival order — whichever
response arrives first prints first. -/
theorem c9_fired_order_completion_unordered (a b c : Fin 3)
    (tr : Fin 3 → FetchResult) (_h : ([a, b, c] : List (Fin 3)).Perm [0, 1, 2]) :
    firedRequests = [randomFactUrl, multipleFactsUrl, breedsUrl]
    ∧ runMain [a, b, c] tr
        = startupEvent ::
            (reportHandler a (tr a)
              ++ (reportHandler b (tr b) ++ reportHandler c (tr c))) := by
  refine ⟨rfl, ?_⟩
  show startupEvent ::
      (reportHandler a (tr a)
        ++ (reportHandler b (tr b) ++ (reportHandler c (tr c) ++ []))) = _
  rw [List.append_nil]

/-- Witness for C9: a run whose breeds response arrives first, then the
single fact, then the multiple facts; the breeds block prints first. -/
theorem c9_fired_order_completion_unordered_witness :
    firedRequests = [randomFactUrl, multipleFactsUrl, breedsUrl]
    ∧ runMain [2, 0, 1] (fun _ => .networkFailure "connection reset")
        = startupEvent ::
            (reportHandler 2 (.networkFailure "connection reset")
              ++ (reportHandler 0 (.networkFailure "connection reset")
                ++ reportHandler 1 (.networkFailure "connection reset"))) :=
  c9_fired_order_completion_unordered 2 0 1
    (fun _ => .networkFailure "connection reset") (by decide)

end FetchPromises
